import Mathlib

/-!
Verification of the provider-chain execution core of the commit-generator
extension: URL utilities, JSON coercion helpers, the six provider adapters,
and the provider-chain executor, shallowly embedded from the TypeScript
source.  JavaScript strings are modelled as Lean `String`, JSON values as an
inductive `Json` type, `undefined` as `Option.none`, thrown exceptions as
`Except`, and the HTTP layer as an oracle indexed by the number of requests
issued so far.
-/

/-! ## String primitives (JavaScript semantics) -/

/-- Whitespace characters recognised by JavaScript `String.prototype.trim`
(the subset that can actually occur in the data handled here). -/
def isJsSpace (c : Char) : Bool :=
  c == ' ' || c == '\t' || c == '\n' || c == '\r' || c == '\x0b' || c == '\x0c' || c == ' '

/-- JavaScript `s.trim()`. -/
def strTrim (s : String) : String :=
  ⟨((s.data.dropWhile isJsSpace).reverse.dropWhile isJsSpace).reverse⟩

/-- ASCII lower-casing of one character, as `toLowerCase` acts on ASCII. -/
def lowerChar (c : Char) : Char :=
  if 65 ≤ c.toNat ∧ c.toNat ≤ 90 then Char.ofNat (c.toNat + 32) else c

/-- JavaScript `s.toLowerCase()` (ASCII fragment). -/
def strToLower (s : String) : String :=
  ⟨s.data.map lowerChar⟩

/-- JavaScript `s.endsWith(suffix)`. -/
def strEndsWith (s suffix : String) : Bool :=
  suffix.data.isSuffixOf s.data

/-- JavaScript `s.startsWith(pre)`. -/
def strStartsWith (s pre : String) : Bool :=
  pre.data.isPrefixOf s.data

/-! ## JSON values

`Json` models a decoded JavaScript value; a possibly-`undefined` value is
`Option Json` with `none` playing the role of `undefined`. -/

inductive Json where
  | jnull
  | jbool (b : Bool)
  | jnum (q : Rat)
  | jstr (s : String)
  | jarr (items : List Json)
  | jobj (fields : List (String × Json))

/-- Property lookup on an object's field list (JavaScript objects have unique
keys, so first-match lookup is the object semantics). -/
def lookupField : List (String × Json) → String → Option Json
  | [], _ => none
  | (k, v) :: rest, key => if k == key then some v else lookupField rest key

/-- Optional-chained property access `record?.key`. -/
def jget (record : Option (List (String × Json))) (key : String) : Option Json :=
  match record with
  | none => none
  | some fields => lookupField fields key

/-! ## JSON coercion helpers (src/ai/json.ts) -/

/-- `asRecord(value)`: the value only if it is a non-array, non-null object,
else `undefined`. -/
def asRecord : Option Json → Option (List (String × Json))
  | some (.jobj fields) => some fields
  | _ => none

/-- `asArray(value)`: the value if it is an array, else the empty array. -/
def asArray : Option Json → List Json
  | some (.jarr items) => items
  | _ => []

/-- `asString(value)`: the value if it is a string, else the empty string. -/
def asString : Option Json → String
  | some (.jstr s) => s
  | _ => ""

/-- `asStringRecord(value)`: keeps the entries whose value is a string with
non-empty trimmed content, values unchanged; empty map otherwise. -/
def asStringRecord (value : Option Json) : List (String × String) :=
  match asRecord value with
  | none => []
  | some source =>
    source.filterMap fun kv =>
      match kv.2 with
      | .jstr item => if 0 < (strTrim item).length then some (kv.1, item) else none
      | _ => none

/-! ## URL utilities (src/ai/url.ts) -/

/-- `normalizeBaseUrl(url)`: strips trailing slashes. -/
def normalizeBaseUrl (url : String) : String :=
  ⟨(url.data.reverse.dropWhile (· == '/')).reverse⟩

/-- `joinUrl(baseUrl, suffix)`: exactly one separating slash. -/
def joinUrl (baseUrl suffix : String) : String :=
  if strStartsWith suffix "/" then normalizeBaseUrl baseUrl ++ suffix
  else normalizeBaseUrl baseUrl ++ "/" ++ suffix

/-- `trimSlashes(value)`: strips leading and trailing slashes. -/
def trimSlashes (value : String) : String :=
  ⟨((value.data.dropWhile (· == '/')).reverse.dropWhile (· == '/')).reverse⟩

/-- `ensureLeadingSlash(value)`. -/
def ensureLeadingSlash (value : String) : String :=
  if strStartsWith value "/" then value else "/" ++ value

/-- `joinVersionedPath(baseUrl, versionSegment, pathAfterVersion)`. -/
def joinVersionedPath (baseUrl versionSegment pathAfterVersion : String) : String :=
  let base := normalizeBaseUrl baseUrl
  let version := trimSlashes versionSegment
  let path := ensureLeadingSlash pathAfterVersion
  if version = "" then base ++ path
  else
    let versionSuffix := "/" ++ version
    if strEndsWith (strToLower base) (strToLower versionSuffix) then base ++ path
    else base ++ versionSuffix ++ path

/-! ## `encodeURIComponent` model (UTF-8 percent encoding) -/

def hexDigitChar (n : Nat) : Char :=
  if n < 10 then Char.ofNat (48 + n) else Char.ofNat (55 + n)

def utf8BytesOfChar (c : Char) : List Nat :=
  let n := c.toNat
  if n < 128 then [n]
  else if n < 2048 then [192 + n / 64, 128 + n % 64]
  else if n < 65536 then [224 + n / 4096, 128 + (n / 64) % 64, 128 + n % 64]
  else [240 + n / 262144, 128 + (n / 4096) % 64, 128 + (n / 64) % 64, 128 + n % 64]

/-- Characters `encodeURIComponent` leaves unescaped: letters, digits and
`- _ . ! ~ * ' ( )` (given by code point). -/
def isUriUnreserved (c : Char) : Bool :=
  let n := c.toNat
  (decide (65 ≤ n) && decide (n ≤ 90)) || (decide (97 ≤ n) && decide (n ≤ 122)) ||
    (decide (48 ≤ n) && decide (n ≤ 57)) ||
    n == 45 || n == 95 || n == 46 || n == 33 || n == 126 || n == 42 || n == 39 || n == 40 || n == 41

def percentEncodeChar (c : Char) : List Char :=
  if isUriUnreserved c then [c]
  else (utf8BytesOfChar c).foldr (fun b acc => '%' :: hexDigitChar (b / 16) :: hexDigitChar (b % 16) :: acc) []

def encodeURIComponent (s : String) : String :=
  ⟨s.data.foldr (fun c acc => percentEncodeChar c ++ acc) []⟩

/-! ## Data model (src/ai/types.ts) -/

inductive ProviderKind where
  | openaiCompat
  | openaiResponses
  | anthropic
  | azureOpenai
  | gemini
  | ollama
deriving DecidableEq

structure ResolvedProviderProfile where
  id : String
  kind : ProviderKind
  model : String
  baseUrl : String
  apiKey : Option String
  envKey : Option String
  enabled : Bool
  timeoutMs : Nat
  maxRetries : Int
  extraHeaders : List (String × String)
  azureDeployment : Option String
  azureApiVersion : String
  geminiApiVersion : String

structure AdapterRequestInput where
  profile : ResolvedProviderProfile
  prompt : String
  temperature : Rat

/-- `AdapterRequest`: headers are an ordered key/value list; a JavaScript
object spread `{...defaults, ...extra}` is modelled by list append with
last-occurrence lookup (`hlookup`). -/
structure AdapterRequest where
  endpoint : String
  headers : List (String × String)
  body : Json

/-- Value of a header record built by object spreads: the last binding of a
key wins, as in JavaScript. -/
def hlookup (entries : List (String × String)) (key : String) : Option String :=
  entries.foldl (fun acc kv => if kv.1 == key then some kv.2 else acc) none

/-! ## Provider adapters (src/ai/adapters/) -/

def missingKeyMessage (profileId provider : String) : String :=
  "Profile \"" ++ profileId ++ "\" (" ++ provider ++ ") 未配置 API Key。"

/-- `requireApiKey`: the trimmed key when present and non-blank, else a
thrown `Error` (modelled as `Except.error`). -/
def requireApiKey (profileId : String) (apiKey : Option String) (provider : String) :
    Except String String :=
  match apiKey with
  | some key => if 0 < (strTrim key).length then .ok (strTrim key)
      else .error (missingKeyMessage profileId provider)
  | none => .error (missingKeyMessage profileId provider)

/-- azureOpenai `requireDeployment`. -/
def requireDeployment (profileId : String) (deployment : Option String) :
    Except String String :=
  match deployment with
  | some d => if 0 < (strTrim d).length then .ok (strTrim d)
      else .error ("Profile \"" ++ profileId ++ "\" (azureOpenai) 缺少 azureDeployment。")
  | none => .error ("Profile \"" ++ profileId ++ "\" (azureOpenai) 缺少 azureDeployment。")

def userMessageBody (prompt : String) : Json :=
  .jarr [.jobj [("role", .jstr "user"), ("content", .jstr prompt)]]

def buildOpenaiCompat (input : AdapterRequestInput) : Except String AdapterRequest :=
  match requireApiKey input.profile.id input.profile.apiKey "openaiCompat" with
  | .error e => .error e
  | .ok apiKey => .ok
    { endpoint := joinVersionedPath input.profile.baseUrl "v1" "chat/completions"
      headers := [("Authorization", "Bearer " ++ apiKey), ("Content-Type", "application/json")] ++
        input.profile.extraHeaders
      body := .jobj [("model", .jstr input.profile.model),
        ("messages", userMessageBody input.prompt),
        ("temperature", .jnum input.temperature)] }

def buildOpenaiResponses (input : AdapterRequestInput) : Except String AdapterRequest :=
  match requireApiKey input.profile.id input.profile.apiKey "openaiResponses" with
  | .error e => .error e
  | .ok apiKey => .ok
    { endpoint := joinVersionedPath input.profile.baseUrl "v1" "responses"
      headers := [("Authorization", "Bearer " ++ apiKey), ("Content-Type", "application/json")] ++
        input.profile.extraHeaders
      body := .jobj [("model", .jstr input.profile.model),
        ("input", .jstr input.prompt),
        ("temperature", .jnum input.temperature)] }

def buildAnthropic (input : AdapterRequestInput) : Except String AdapterRequest :=
  match requireApiKey input.profile.id input.profile.apiKey "anthropic" with
  | .error e => .error e
  | .ok apiKey => .ok
    { endpoint := joinVersionedPath input.profile.baseUrl "v1" "messages"
      headers := [("x-api-key", apiKey), ("Authorization", "Bearer " ++ apiKey),
        ("anthropic-version", "2023-06-01"), ("Content-Type", "application/json")] ++
        input.profile.extraHeaders
      body := .jobj [("model", .jstr input.profile.model),
        ("max_tokens", .jnum 1024),
        ("temperature", .jnum input.temperature),
        ("messages", userMessageBody input.prompt)] }

def buildAzureOpenai (input : AdapterRequestInput) : Except String AdapterRequest :=
  match requireApiKey input.profile.id input.profile.apiKey "azureOpenai" with
  | .error e => .error e
  | .ok apiKey =>
    match requireDeployment input.profile.id input.profile.azureDeployment with
    | .error e => .error e
    | .ok deployment =>
      let baseUrl := normalizeBaseUrl input.profile.baseUrl
      let azureBase := if strEndsWith (strToLower baseUrl) "/openai" then baseUrl
        else baseUrl ++ "/openai"
      .ok
      { endpoint := azureBase ++ "/deployments/" ++ encodeURIComponent deployment ++
          "/chat/completions?api-version=" ++ encodeURIComponent input.profile.azureApiVersion
        headers := [("api-key", apiKey), ("Content-Type", "application/json")] ++
          input.profile.extraHeaders
        body := .jobj [("messages", userMessageBody input.prompt),
          ("temperature", .jnum input.temperature)] }

def buildGemini (input : AdapterRequestInput) : Except String AdapterRequest :=
  match requireApiKey input.profile.id input.profile.apiKey "gemini" with
  | .error e => .error e
  | .ok apiKey => .ok
    { endpoint := joinVersionedPath input.profile.baseUrl input.profile.geminiApiVersion
        ("models/" ++ encodeURIComponent input.profile.model ++ ":generateContent") ++
        "?key=" ++ encodeURIComponent apiKey
      headers := [("Content-Type", "application/json")] ++ input.profile.extraHeaders
      body := .jobj [("contents", .jarr [.jobj [("role", .jstr "user"),
          ("parts", .jarr [.jobj [("text", .jstr input.prompt)]])]]),
        ("generationConfig", .jobj [("temperature", .jnum input.temperature)])] }

def buildOllama (input : AdapterRequestInput) : Except String AdapterRequest :=
  .ok
  { endpoint := joinUrl input.profile.baseUrl "/api/chat"
    headers := [("Content-Type", "application/json")] ++ input.profile.extraHeaders
    body := .jobj [("model", .jstr input.profile.model),
      ("stream", .jbool false),
      ("options", .jobj [("temperature", .jnum input.temperature)]),
      ("messages", userMessageBody input.prompt)] }

/-- `adapter.buildRequest` dispatched over the adapter registry. -/
def buildRequest : ProviderKind → AdapterRequestInput → Except String AdapterRequest
  | .openaiCompat => buildOpenaiCompat
  | .openaiResponses => buildOpenaiResponses
  | .anthropic => buildAnthropic
  | .azureOpenai => buildAzureOpenai
  | .gemini => buildGemini
  | .ollama => buildOllama

/-- Loop `for (const chunk of chunks) { ... if (text) return text; }` shared
by the chat-completions and anthropic parsers. -/
def firstChunkText : List Json → String
  | [] => ""
  | chunk :: rest =>
    if asString (jget (asRecord (some chunk)) "text") = "" then firstChunkText rest
    else asString (jget (asRecord (some chunk)) "text")

/-- openaiCompat / azureOpenai `parseResponse`. -/
def parseChatCompletions (data : Option Json) : String :=
  let root := asRecord data
  let choices := asArray (jget root "choices")
  let firstChoice := asRecord choices.head?
  let message := asRecord (jget firstChoice "message")
  match jget message "content" with
  | some (.jstr content) => content
  | other => firstChunkText (asArray other)

/-- openaiResponses: scan `output[].content[]` after `output_text`. -/
def outputScan : List Json → String
  | [] => ""
  | item :: rest =>
    if firstChunkText (asArray (jget (asRecord (some item)) "content")) = "" then outputScan rest
    else firstChunkText (asArray (jget (asRecord (some item)) "content"))

def parseOpenaiResponses (data : Option Json) : String :=
  let root := asRecord data
  let outputText := asString (jget root "output_text")
  if outputText = "" then outputScan (asArray (jget root "output")) else outputText

def parseAnthropic (data : Option Json) : String :=
  firstChunkText (asArray (jget (asRecord data) "content"))

/-- gemini: collect the non-empty `text` of every part. -/
def geminiLines : List Json → List String
  | [] => []
  | part :: rest =>
    if asString (jget (asRecord (some part)) "text") = "" then geminiLines rest
    else asString (jget (asRecord (some part)) "text") :: geminiLines rest

def parseGemini (data : Option Json) : String :=
  let root := asRecord data
  let candidates := asArray (jget root "candidates")
  let firstCandidate := asRecord candidates.head?
  let content := asRecord (jget firstCandidate "content")
  let parts := asArray (jget content "parts")
  strTrim (String.intercalate "\n" (geminiLines parts))

def parseOllama (data : Option Json) : String :=
  asString (jget (asRecord (jget (asRecord data) "message")) "content")

/-- `adapter.parseResponse` dispatched over the adapter registry. -/
def parseResponse : ProviderKind → Option Json → String
  | .openaiCompat => parseChatCompletions
  | .openaiResponses => parseOpenaiResponses
  | .anthropic => parseAnthropic
  | .azureOpenai => parseChatCompletions
  | .gemini => parseGemini
  | .ollama => parseOllama

/-! ## Provider-chain executor (src/ai/executor.ts)

The HTTP layer is an oracle `http : Nat → HttpOutcome` indexed by the number
of requests issued so far during the run; `fetch` either aborts on the
timeout signal, fails at the connection level, or completes with a status
code and a body (already passed through the total `tryParseJson`, so the
decoded value is an arbitrary `Json` plus the raw body text).  Wall-clock
latency is not modelled (`latencyMs` is recorded as `0`). -/

inductive HttpOutcome where
  | timeout
  | networkError (detail : String)
  | response (status : Nat) (data : Json) (bodyText : String)

def isRetryableStatus (status : Nat) : Bool :=
  status == 408 || status == 429 || decide (500 ≤ status)

/-- `extractErrorMessage(value)` over a decoded JSON body. -/
def extractErrorMessage (value : Json) : String :=
  match value with
  | .jobj fields =>
    let topMessage :=
      match lookupField fields "message" with
      | some (.jstr s) => if 0 < (strTrim s).length then s else ""
      | _ => ""
    if topMessage ≠ "" then topMessage
    else
      match lookupField fields "error" with
      | some (.jobj detail) =>
        (match lookupField detail "message" with
         | some (.jstr s) =>
           if 0 < (strTrim s).length then s
           else
             match lookupField detail "code" with
             | some (.jstr c) => if 0 < (strTrim c).length then c else ""
             | _ => ""
         | _ =>
           match lookupField detail "code" with
           | some (.jstr c) => if 0 < (strTrim c).length then c else ""
           | _ => "")
      | some (.jstr s) => if 0 < (strTrim s).length then s else ""
      | _ => ""
  | _ => ""

/-- The message carried by an `HttpStatusError`:
`extractErrorMessage(parsed) || responseText || "HTTP <status>"`, trimmed. -/
def statusErrorMessage (status : Nat) (data : Json) (bodyText : String) : String :=
  strTrim (if extractErrorMessage data ≠ "" then extractErrorMessage data
    else if bodyText ≠ "" then bodyText
    else "HTTP " ++ toString status)

def timeoutErrorMessage (timeoutMs : Nat) : String :=
  "请求超时（" ++ toString timeoutMs ++ "ms）。"

def networkErrorMessage (detail : String) : String :=
  "网络请求失败：" ++ detail

def emptyMessageError : String := "AI 返回为空或格式不合法。"

structure ProviderFailure where
  profileId : String
  provider : ProviderKind
  endpoint : String
  status : Option Nat
  retryable : Bool
  attempt : Nat
  error : String
  latencyMs : Nat

structure ProviderSuccess where
  profileId : String
  provider : ProviderKind
  endpoint : String
  latencyMs : Nat
  message : String

structure ProviderRunInput where
  profiles : List ResolvedProviderProfile
  prompt : String
  temperature : Option Rat
  transformMessage : Option (String → String)

def defaultTemperature : Rat := 1 / 5

/-- The post-parse processing of one attempt's message: trim, apply the
caller's `transformMessage` when provided, trim again. -/
def applyTransform (transform : Option (String → String)) (message : String) : String :=
  match transform with
  | some f => strTrim (f message)
  | none => message

def mkFailure (p : ResolvedProviderProfile) (endpoint : String) (status : Option Nat)
    (retryable : Bool) (attempt : Nat) (err : String) : ProviderFailure :=
  { profileId := p.id, provider := p.kind, endpoint := endpoint, status := status,
    retryable := retryable, attempt := attempt, error := err, latencyMs := 0 }

def mkSuccess (p : ResolvedProviderProfile) (endpoint message : String) : ProviderSuccess :=
  { profileId := p.id, provider := p.kind, endpoint := endpoint, latencyMs := 0,
    message := message }

inductive AttemptOutcome where
  | succeeded (s : ProviderSuccess)
  | failed (f : ProviderFailure)

/-- One iteration of the attempt loop body: build the request; if that throws
the failure is non-retryable and no HTTP call is made; otherwise POST via the
oracle and classify the outcome exactly as the `catch`/`normalizeError` path
does.  Returns the outcome and the next HTTP call index. -/
def runAttempt (http : Nat → HttpOutcome) (p : ResolvedProviderProfile) (prompt : String)
    (temperature : Rat) (transform : Option (String → String)) (callIdx attempt : Nat) :
    AttemptOutcome × Nat :=
  match buildRequest p.kind ⟨p, prompt, temperature⟩ with
  | .error e => (.failed (mkFailure p p.baseUrl none false attempt e), callIdx)
  | .ok req =>
    match http callIdx with
    | .timeout =>
      (.failed (mkFailure p req.endpoint none true attempt (timeoutErrorMessage p.timeoutMs)),
        callIdx + 1)
    | .networkError detail =>
      (.failed (mkFailure p req.endpoint none true attempt (networkErrorMessage detail)),
        callIdx + 1)
    | .response status data bodyText =>
      if 200 ≤ status ∧ status ≤ 299 then
        if applyTransform transform (strTrim (parseResponse p.kind (some data))) = "" then
          (.failed (mkFailure p req.endpoint none false attempt emptyMessageError), callIdx + 1)
        else
          (.succeeded (mkSuccess p req.endpoint
            (applyTransform transform (strTrim (parseResponse p.kind (some data))))), callIdx + 1)
      else
        (.failed (mkFailure p req.endpoint (some status) (isRetryableStatus status) attempt
          (statusErrorMessage status data bodyText)), callIdx + 1)

/-- Result of a (partial) chain run, extended with the observable traces the
source exposes only through behaviour: `attempts` records one
`(profileId, attempt)` entry per executed loop iteration, and `nextCallIdx`
counts the HTTP requests issued. -/
structure ChainOutcome where
  success : Option ProviderSuccess
  failures : List ProviderFailure
  attempts : List (String × Nat)
  nextCallIdx : Nat

/-- The retry loop of one profile, `remaining` attempts left (the current one
included): retry on a retryable failure while `attempt < totalAttempts`,
stop on success or a terminal failure. -/
def runProfileAttempts (http : Nat → HttpOutcome) (p : ResolvedProviderProfile)
    (prompt : String) (temperature : Rat) (transform : Option (String → String)) :
    Nat → Nat → Nat → ChainOutcome
  | callIdx, _attempt, 0 => ⟨none, [], [], callIdx⟩
  | callIdx, attempt, remaining + 1 =>
    match runAttempt http p prompt temperature transform callIdx attempt with
    | (.succeeded s, k) => ⟨some s, [], [(p.id, attempt)], k⟩
    | (.failed f, k) =>
      if f.retryable && decide (0 < remaining) then
        let rest := runProfileAttempts http p prompt temperature transform k (attempt + 1) remaining
        ⟨rest.success, f :: rest.failures, (p.id, attempt) :: rest.attempts, rest.nextCallIdx⟩
      else
        ⟨none, [f], [(p.id, attempt)], k⟩

/-- `totalAttempts = Math.max(0, profile.maxRetries) + 1`. -/
def totalAttemptsOf (p : ResolvedProviderProfile) : Nat :=
  (max 0 p.maxRetries).toNat + 1

/-- The profile loop: the first success short-circuits the chain with the
failures accumulated so far; otherwise move to the next profile. -/
def runChain (http : Nat → HttpOutcome) (prompt : String) (temperature : Rat)
    (transform : Option (String → String)) :
    List ResolvedProviderProfile → Nat → ChainOutcome
  | [], callIdx => ⟨none, [], [], callIdx⟩
  | p :: rest, callIdx =>
    let res := runProfileAttempts http p prompt temperature transform callIdx 1 (totalAttemptsOf p)
    match res.success with
    | some _ => res
    | none =>
      let next := runChain http prompt temperature transform rest res.nextCallIdx
      ⟨next.success, res.failures ++ next.failures, res.attempts ++ next.attempts,
        next.nextCallIdx⟩

/-- `executeProviderChain(input, logger)` (the logger is a pure sink and is
not modelled): temperature defaults to 0.2. -/
def executeProviderChain (input : ProviderRunInput) (http : Nat → HttpOutcome) : ChainOutcome :=
  runChain http input.prompt (input.temperature.getD defaultTemperature)
    input.transformMessage input.profiles 0

/-- `formatFailureReason(failure)`. -/
def formatFailureReason (failure : ProviderFailure) : String :=
  let status := match failure.status with
    | some s => " status=" ++ toString s
    | none => ""
  (match failure.provider with
    | .openaiCompat => "openaiCompat"
    | .openaiResponses => "openaiResponses"
    | .anthropic => "anthropic"
    | .azureOpenai => "azureOpenai"
    | .gemini => "gemini"
    | .ollama => "ollama") ++ "/" ++ failure.profileId ++ status ++
    " attempt=" ++ toString failure.attempt ++
    " retryable=" ++ (if failure.retryable then "true" else "false") ++
    " error=" ++ failure.error

/-- The pair identifying which loop iteration produced a failure record. -/
def failKey (f : ProviderFailure) : String × Nat := (f.profileId, f.attempt)

example : joinVersionedPath "https://api.openai.com" "v1" "chat/completions" =
    "https://api.openai.com/v1/chat/completions" := by decide
example : joinVersionedPath "https://api.openai.com/v1" "v1" "chat/completions" =
    "https://api.openai.com/v1/chat/completions" := by decide
example : asStringRecord (some (.jobj [("a", .jstr "x"), ("b", .jstr " "), ("c", .jnum 3)])) =
    [("a", "x")] := by decide
example : parseGemini (some (.jobj [("candidates", .jarr [.jobj [("content", .jobj [("parts",
    .jarr [.jobj [("text", .jstr "line1")], .jobj [("text", .jstr "line2")]])])]])])) =
    "line1\nline2" := by decide
example : parseOllama (some (.jobj [("message", .jobj [("content", .jstr "hi")])])) = "hi" := by decide

/-! ## Concrete scenario inputs used by the claim witnesses -/

/-- A profile with no API key (and no Azure deployment). -/
def pNoKey : ResolvedProviderProfile :=
  ⟨"p0", .openaiCompat, "m", "http://h", none, none, true, 1000, 0, [], none, "2024-10-21", "v1beta"⟩

/-- A profile whose `extraHeaders` re-binds `Authorization`. -/
def pHdr : ResolvedProviderProfile :=
  ⟨"hdr", .openaiCompat, "m", "http://h", some "k", none, true, 1000, 0,
    [("Authorization", "custom")], none, "2024-10-21", "v1beta"⟩

/-- The request `buildRequest` produces for `pHdr`. -/
def reqC8 : AdapterRequest :=
  { endpoint := joinVersionedPath "http://h" "v1" "chat/completions"
    headers := [("Authorization", "Bearer k"), ("Content-Type", "application/json"),
      ("Authorization", "custom")]
    body := Json.jobj [("model", Json.jstr "m"), ("messages", userMessageBody "x"),
      ("temperature", Json.jnum 1)] }

/-- A gemini-shaped response whose single candidate carries one part per text. -/
def geminiResponseOfTexts (texts : List String) : Json :=
  .jobj [("candidates", .jarr [.jobj [("content", .jobj [("parts",
    .jarr (texts.map fun t => .jobj [("text", .jstr t)]))])]])]

/-- First profile of the C1 scenario: openaiCompat, one retry. -/
def profileC1a : ResolvedProviderProfile :=
  ⟨"primary", .openaiCompat, "gpt", "https://api.openai.com", some "k1", none, true, 20000, 1,
    [], none, "2024-10-21", "v1beta"⟩

/-- Second profile of the C1 scenario. -/
def profileC1b : ResolvedProviderProfile :=
  ⟨"fallback", .openaiCompat, "gpt", "https://api.openai.com", some "k2", none, true, 20000, 2,
    [], none, "2024-10-21", "v1beta"⟩

/-- A valid chat-completion body. -/
def bodyC1 : Json :=
  .jobj [("choices", .jarr [.jobj [("message", .jobj [("content", .jstr "feat: add feature")])]])]

/-- HTTP oracle of the C1 scenario: the first two requests return status 500,
every later one status 200 with a valid body. -/
def httpC1 : Nat → HttpOutcome := fun n =>
  if n < 2 then .response 500 .jnull "server error" else .response 200 bodyC1 ""



/-! ## Helper lemmas -/

theorem hlookup_foldl_init (k : String) (bs : List (String × String)) (init : Option String) :
    bs.foldl (fun acc kv => if kv.1 == k then some kv.2 else acc) init =
      match bs.foldl (fun acc kv => if kv.1 == k then some kv.2 else acc) none with
      | some v => some v
      | none => init := by
  induction bs generalizing init with
  | nil => simp
  | cons b bs ih =>
    simp only [List.foldl_cons]
    rw [ih (if b.1 == k then some b.2 else init), ih (if b.1 == k then some b.2 else none)]
    cases h : bs.foldl (fun acc kv => if kv.1 == k then some kv.2 else acc) none <;>
      cases hb : (b.1 == k) <;> simp [h, hb]

/-- Spread semantics: a binding present in the later record survives the
merge of an earlier record before it. -/
theorem hlookup_append_right (as bs : List (String × String)) (k v : String)
    (h : hlookup bs k = some v) : hlookup (as ++ bs) k = some v := by
  unfold hlookup at h ⊢
  rw [List.foldl_append, hlookup_foldl_init]
  rw [show bs.foldl (fun acc kv => if kv.1 == k then some kv.2 else acc) none = some v from h]

theorem runAttempt_key (http : Nat → HttpOutcome) (p : ResolvedProviderProfile)
    (prompt : String) (T : Rat) (tr : Option (String → String)) (ci a : Nat) :
    (∀ f k, runAttempt http p prompt T tr ci a = (.failed f, k) →
      f.profileId = p.id ∧ f.attempt = a) ∧
    (∀ s k, runAttempt http p prompt T tr ci a = (.succeeded s, k) → s.profileId = p.id) := by
  rcases hb : buildRequest p.kind ⟨p, prompt, T⟩ with e | req
  · have hv : runAttempt http p prompt T tr ci a =
        (.failed (mkFailure p p.baseUrl none false a e), ci) := by
      simp [runAttempt, hb]
    refine ⟨fun f k h => ?_, fun s k h => ?_⟩ <;> rw [hv] at h <;> injection h with h1 h2
    · injection h1 with h1
      subst h1
      exact ⟨rfl, rfl⟩
    · exact AttemptOutcome.noConfusion h1
  · rcases ho : http ci with _ | d | ⟨status, data, bodyText⟩
    · have hv : runAttempt http p prompt T tr ci a =
          (.failed (mkFailure p req.endpoint none true a (timeoutErrorMessage p.timeoutMs)), ci + 1) := by
        simp [runAttempt, hb, ho]
      refine ⟨fun f k h => ?_, fun s k h => ?_⟩ <;> rw [hv] at h <;> injection h with h1 h2
      · injection h1 with h1
        subst h1
        exact ⟨rfl, rfl⟩
      · exact AttemptOutcome.noConfusion h1
    · have hv : runAttempt http p prompt T tr ci a =
          (.failed (mkFailure p req.endpoint none true a (networkErrorMessage d)), ci + 1) := by
        simp [runAttempt, hb, ho]
      refine ⟨fun f k h => ?_, fun s k h => ?_⟩ <;> rw [hv] at h <;> injection h with h1 h2
      · injection h1 with h1
        subst h1
        exact ⟨rfl, rfl⟩
      · exact AttemptOutcome.noConfusion h1
    · by_cases hst : 200 ≤ status ∧ status ≤ 299
      · by_cases hm : applyTransform tr (strTrim (parseResponse p.kind (some data))) = ""
        · have hv : runAttempt http p prompt T tr ci a =
              (.failed (mkFailure p req.endpoint none false a emptyMessageError), ci + 1) := by
            simp [runAttempt, hb, ho, hst, hm]
          refine ⟨fun f k h => ?_, fun s k h => ?_⟩ <;> rw [hv] at h <;> injection h with h1 h2
          · injection h1 with h1
            subst h1
            exact ⟨rfl, rfl⟩
          · exact AttemptOutcome.noConfusion h1
        · have hv : runAttempt http p prompt T tr ci a =
              (.succeeded (mkSuccess p req.endpoint
                (applyTransform tr (strTrim (parseResponse p.kind (some data))))), ci + 1) := by
            simp [runAttempt, hb, ho, hst, hm]
          refine ⟨fun f k h => ?_, fun s k h => ?_⟩ <;> rw [hv] at h <;> injection h with h1 h2
          · exact AttemptOutcome.noConfusion h1
          · injection h1 with h1
            subst h1
            rfl
      · have hv : runAttempt http p prompt T tr ci a =
            (.failed (mkFailure p req.endpoint (some status) (isRetryableStatus status) a
              (statusErrorMessage status data bodyText)), ci + 1) := by
          simp [runAttempt, hb, ho, hst]
        refine ⟨fun f k h => ?_, fun s k h => ?_⟩ <;> rw [hv] at h <;> injection h with h1 h2
        · injection h1 with h1
          subst h1
          exact ⟨rfl, rfl⟩
        · exact AttemptOutcome.noConfusion h1

theorem runProfileAttempts_trace (http : Nat → HttpOutcome) (p : ResolvedProviderProfile)
    (prompt : String) (T : Rat) (tr : Option (String → String)) :
    ∀ remaining callIdx attempt r,
      runProfileAttempts http p prompt T tr callIdx attempt remaining = r →
      (r.success = none → r.attempts = r.failures.map failKey) ∧
      (∀ s, r.success = some s → ∃ n, r.attempts = r.failures.map failKey ++ [(s.profileId, n)]) := by
  intro remaining
  induction remaining with
  | zero =>
    intro ci a r hr
    unfold runProfileAttempts at hr
    subst hr
    simp
  | succ n ih =>
    intro ci a r hr
    unfold runProfileAttempts at hr
    cases hA : runAttempt http p prompt T tr ci a with
    | mk out k =>
      rw [hA] at hr
      cases out with
      | succeeded s =>
        subst hr
        refine ⟨by simp, ?_⟩
        intro s' hs'
        simp only [Option.some.injEq] at hs'
        subst hs'
        have hsid := (runAttempt_key http p prompt T tr ci a).2 _ k hA
        exact ⟨a, by simp [hsid]⟩
      | failed f =>
        obtain ⟨hpid, hatt⟩ := (runAttempt_key http p prompt T tr ci a).1 f k hA
        simp only [] at hr
        by_cases hc : (f.retryable && decide (0 < n)) = true
        · rw [if_pos hc] at hr
          obtain ⟨hnone, hsome⟩ := ih k (a + 1) _ rfl
          subst hr
          constructor
          · intro hs
            simp only at hs
            simp [hnone hs, failKey, hpid, hatt]
          · intro s hs
            simp only at hs
            obtain ⟨m, hm⟩ := hsome s hs
            exact ⟨m, by simp [hm, failKey, hpid, hatt]⟩
        · rw [if_neg hc] at hr
          subst hr
          refine ⟨fun _ => ?_, fun s hs => by simp at hs⟩
          simp [failKey, hpid, hatt]

theorem runChain_trace (http : Nat → HttpOutcome) (prompt : String) (T : Rat)
    (tr : Option (String → String)) :
    ∀ profiles callIdx r, runChain http prompt T tr profiles callIdx = r →
      (r.success = none → r.attempts = r.failures.map failKey) ∧
      (∀ s, r.success = some s → ∃ n, r.attempts = r.failures.map failKey ++ [(s.profileId, n)]) := by
  intro profiles
  induction profiles with
  | nil =>
    intro ci r hr
    subst hr
    simp [runChain]
  | cons p rest ih =>
    intro ci r hr
    unfold runChain at hr
    simp only [] at hr
    obtain ⟨hnone, hsome⟩ := runProfileAttempts_trace http p prompt T tr (totalAttemptsOf p) ci 1 _ rfl
    cases hs : (runProfileAttempts http p prompt T tr ci 1 (totalAttemptsOf p)).success with
    | some s =>
      rw [hs] at hr
      subst hr
      refine ⟨fun hn => ?_, fun s' hs' => hsome s' hs'⟩
      rw [hs] at hn
      cases hn
    | none =>
      rw [hs] at hr
      obtain ⟨hnone', hsome'⟩ := ih _ _ rfl
      subst hr
      constructor
      · intro hn
        simp only at hn ⊢
        rw [List.map_append, hnone hs, hnone' hn]
      · intro s hs'
        simp only at hs' ⊢
        obtain ⟨m, hm⟩ := hsome' s hs'
        exact ⟨m, by rw [List.map_append, hnone hs, hm, List.append_assoc]⟩

theorem geminiLines_of_texts (texts : List String) (h : ∀ t ∈ texts, t ≠ "") :
    geminiLines (texts.map fun t => Json.jobj [("text", Json.jstr t)]) = texts := by
  induction texts with
  | nil => rfl
  | cons t ts ih =>
    have ht : t ≠ "" := h t (List.mem_cons_self t ts)
    have hts := ih fun x hx => h x (List.mem_cons_of_mem t hx)
    simp [geminiLines, asRecord, jget, lookupField, asString, ht, hts]

/-! ## Claims -/

/-- Claim C3: `isRetryableStatus(status)` is true exactly for 408, 429 and
every status at least 500; in particular true on 408/429/500/502/503 and
false on 400/401/403/404. -/
theorem isRetryableStatus_spec :
    (∀ status : Nat, isRetryableStatus status = true ↔
      (status = 408 ∨ status = 429 ∨ 500 ≤ status)) ∧
    (isRetryableStatus 408 = true ∧ isRetryableStatus 429 = true ∧
      isRetryableStatus 500 = true ∧ isRetryableStatus 502 = true ∧
      isRetryableStatus 503 = true) ∧
    (isRetryableStatus 400 = false ∧ isRetryableStatus 401 = false ∧
      isRetryableStatus 403 = false ∧ isRetryableStatus 404 = false) := by
  refine ⟨fun status => ?_, by decide, by decide⟩
  simp [isRetryableStatus, Bool.or_eq_true, beq_iff_eq, decide_eq_true_iff, or_assoc]

/-- Claim C5: `joinVersionedPath` appends the path directly when the trimmed
version segment is empty or when the normalized base already ends (ASCII
case-insensitively) with `/` + segment, and otherwise inserts the segment
between them; with the two concrete OpenAI examples. -/
theorem joinVersionedPath_spec :
    (∀ b v p, trimSlashes v = "" →
      joinVersionedPath b v p = normalizeBaseUrl b ++ ensureLeadingSlash p) ∧
    (∀ b v p, trimSlashes v ≠ "" →
      strEndsWith (strToLower (normalizeBaseUrl b)) (strToLower ("/" ++ trimSlashes v)) = true →
      joinVersionedPath b v p = normalizeBaseUrl b ++ ensureLeadingSlash p) ∧
    (∀ b v p, trimSlashes v ≠ "" →
      strEndsWith (strToLower (normalizeBaseUrl b)) (strToLower ("/" ++ trimSlashes v)) = false →
      joinVersionedPath b v p =
        normalizeBaseUrl b ++ ("/" ++ trimSlashes v) ++ ensureLeadingSlash p) ∧
    joinVersionedPath "https://api.openai.com" "v1" "chat/completions" =
      "https://api.openai.com/v1/chat/completions" ∧
    joinVersionedPath "https://api.openai.com/v1" "v1" "chat/completions" =
      "https://api.openai.com/v1/chat/completions" := by
  refine ⟨?_, ?_, ?_, by decide, by decide⟩
  · intro b v p h
    simp [joinVersionedPath, h]
  · intro b v p h1 h2
    simp [joinVersionedPath, h1, h2]
  · intro b v p h1 h2
    simp [joinVersionedPath, h1, h2]

theorem joinVersionedPath_spec_witness :
    joinVersionedPath "https://api.openai.com/v1" "v1" "chat/completions" =
      normalizeBaseUrl "https://api.openai.com/v1" ++ ensureLeadingSlash "chat/completions" :=
  joinVersionedPath_spec.2.1 "https://api.openai.com/v1" "v1" "chat/completions"
    (by decide) (by decide)

/-- Claim C6: the gemini parser joins the texts of all parts of the first
candidate with a newline (not only the first part); in particular the
two-part response parses to `"line1\nline2"`. -/
theorem gemini_parse_joins_all_parts :
    parseResponse ProviderKind.gemini (some (geminiResponseOfTexts ["line1", "line2"])) =
      "line1\nline2" ∧
    (∀ texts : List String, (∀ t ∈ texts, t ≠ "") →
      strTrim (String.intercalate "\n" texts) = String.intercalate "\n" texts →
      parseResponse ProviderKind.gemini (some (geminiResponseOfTexts texts)) =
        String.intercalate "\n" texts) := by
  constructor
  · decide
  · intro texts hne htrim
    have hv : parseResponse ProviderKind.gemini (some (geminiResponseOfTexts texts)) =
        strTrim (String.intercalate "\n"
          (geminiLines (texts.map fun t => Json.jobj [("text", Json.jstr t)]))) := rfl
    rw [hv, geminiLines_of_texts texts hne, htrim]

theorem gemini_parse_joins_all_parts_witness :
    parseResponse ProviderKind.gemini (some (geminiResponseOfTexts ["a", "b"])) =
      String.intercalate "\n" ["a", "b"] :=
  gemini_parse_joins_all_parts.2 ["a", "b"] (by decide) (by decide)

/-- Claim C7: the coercion helpers degrade non-matching values to
`undefined` / empty array / empty string, and every adapter parser returns
the empty string (rather than failing) on inputs that are not objects or
whose expected fields are missing or wrongly typed. -/
theorem parse_response_total_on_malformed :
    (∀ j : Option Json, (∀ fields, j ≠ some (Json.jobj fields)) → asRecord j = none) ∧
    (∀ j : Option Json, (∀ items, j ≠ some (Json.jarr items)) → asArray j = []) ∧
    (∀ j : Option Json, (∀ s, j ≠ some (Json.jstr s)) → asString j = "") ∧
    (∀ kind : ProviderKind, ∀ j : Json, asRecord (some j) = none →
      parseResponse kind (some j) = "") ∧
    (∀ kind : ProviderKind, parseResponse kind none = "") ∧
    (∀ kind : ProviderKind, parseResponse kind (some (Json.jobj [])) = "") ∧
    (∀ kind : ProviderKind, parseResponse kind (some (Json.jobj
      [("choices", Json.jnum 1), ("candidates", Json.jbool true), ("content", Json.jnull),
       ("output", Json.jstr "x"), ("output_text", Json.jarr []),
       ("message", Json.jnum 2)])) = "") := by
  refine ⟨?_, ?_, ?_, ?_, ?_, ?_, ?_⟩
  · intro j h
    rcases j with _ | x
    · rfl
    · cases x <;> first | rfl | exact absurd rfl (h _)
  · intro j h
    rcases j with _ | x
    · rfl
    · cases x <;> first | rfl | exact absurd rfl (h _)
  · intro j h
    rcases j with _ | x
    · rfl
    · cases x <;> first | rfl | exact absurd rfl (h _)
  · intro kind j h
    cases kind <;>
      simp only [parseResponse, parseChatCompletions, parseOpenaiResponses, parseAnthropic,
        parseGemini, parseOllama, h] <;> rfl
  · intro kind
    cases kind <;> rfl
  · intro kind
    cases kind <;> rfl
  · intro kind
    cases kind <;> rfl

theorem parse_response_total_on_malformed_witness :
    parseResponse ProviderKind.gemini (some Json.jnull) = "" :=
  parse_response_total_on_malformed.2.2.2.1 ProviderKind.gemini Json.jnull rfl

/-- Claim C9 counterexample: `asStringRecord` drops the pair whose value is
the non-empty (whitespace-only) string `" "`, so it does not keep exactly
the pairs with non-empty string values. -/
theorem asStringRecord_blank_value_counterexample :
    asStringRecord (some (Json.jobj [("k", Json.jstr " ")])) = [] ∧ (" " : String) ≠ "" :=
  ⟨by decide, by decide⟩

/-- Claim C9 (amended): `asStringRecord` returns exactly the pairs whose
value is a string with non-empty trimmed content, values unchanged, and the
empty map when the input is not a non-array object. -/
theorem asStringRecord_keeps_trimmed_nonempty :
    (∀ fields k v, (k, v) ∈ asStringRecord (some (Json.jobj fields)) ↔
      ((k, Json.jstr v) ∈ fields ∧ 0 < (strTrim v).length)) ∧
    (∀ j : Option Json, (∀ fields, j ≠ some (Json.jobj fields)) → asStringRecord j = []) := by
  constructor
  · intro fields k v
    simp only [asStringRecord, asRecord, List.mem_filterMap]
    constructor
    · rintro ⟨⟨k', j⟩, hmem, hpick⟩
      cases j with
      | jstr s =>
        simp only [] at hpick
        by_cases hl : 0 < (strTrim s).length
        · rw [if_pos hl] at hpick
          obtain ⟨hk, hv⟩ := Prod.mk.injEq .. ▸ Option.some.inj hpick
          subst hk
          subst hv
          exact ⟨hmem, hl⟩
        · rw [if_neg hl] at hpick
          exact Option.noConfusion hpick
      | jnull => exact Option.noConfusion hpick
      | jbool b => exact Option.noConfusion hpick
      | jnum q => exact Option.noConfusion hpick
      | jarr items => exact Option.noConfusion hpick
      | jobj fs => exact Option.noConfusion hpick
    · rintro ⟨hmem, hlen⟩
      exact ⟨(k, Json.jstr v), hmem, by simp [hlen]⟩
  · intro j h
    rcases j with _ | x
    · rfl
    · cases x <;> first | rfl | exact absurd rfl (h _)

theorem asStringRecord_keeps_trimmed_nonempty_witness :
    asStringRecord (some (Json.jarr [])) = [] :=
  asStringRecord_keeps_trimmed_nonempty.2 (some (Json.jarr []))
    (fun fields h => Json.noConfusion (Option.some.inj h))

/-- Claim C10: on an empty profile list the executor issues no HTTP request
and returns no success and an empty failure list. -/
theorem executor_empty_profiles (prompt : String) (temp : Option Rat)
    (tr : Option (String → String)) (http : Nat → HttpOutcome) :
    executeProviderChain ⟨[], prompt, temp, tr⟩ http = ⟨none, [], [], 0⟩ := rfl

/-- Claim C2: the executor always returns a plain result (every failure mode
of the modelled HTTP layer is classified, never propagated), and the failure
list records exactly one entry, in order, for every attempt except a final
successful one; when no success is present it covers every attempt made. -/
theorem executor_failure_trail_complete (input : ProviderRunInput) (http : Nat → HttpOutcome) :
    ((executeProviderChain input http).success = none →
      (executeProviderChain input http).attempts =
        (executeProviderChain input http).failures.map failKey) ∧
    (∀ s, (executeProviderChain input http).success = some s →
      ∃ n, (executeProviderChain input http).attempts =
        (executeProviderChain input http).failures.map failKey ++ [(s.profileId, n)]) :=
  runChain_trace http input.prompt (input.temperature.getD defaultTemperature)
    input.transformMessage input.profiles 0 _ rfl

theorem executor_failure_trail_complete_witness :
    (executeProviderChain ⟨[], "p", none, none⟩ (fun _ => HttpOutcome.timeout)).attempts =
      (executeProviderChain ⟨[], "p", none, none⟩
        (fun _ => HttpOutcome.timeout)).failures.map failKey :=
  (executor_failure_trail_complete ⟨[], "p", none, none⟩ (fun _ => HttpOutcome.timeout)).1 rfl

/-- Claim C4: every key-requiring adapter kind rejects a profile without an
API key when building the request (before any HTTP call: `runAttempt` leaves
the call counter untouched), azureOpenai additionally rejects a missing
deployment, and the ollama adapter builds its request without any key. -/
theorem adapter_build_requires_key (p : ResolvedProviderProfile) (prompt : String) (T : Rat) :
    (p.apiKey = none →
      (∃ e, buildRequest ProviderKind.openaiCompat ⟨p, prompt, T⟩ = Except.error e) ∧
      (∃ e, buildRequest ProviderKind.openaiResponses ⟨p, prompt, T⟩ = Except.error e) ∧
      (∃ e, buildRequest ProviderKind.anthropic ⟨p, prompt, T⟩ = Except.error e) ∧
      (∃ e, buildRequest ProviderKind.azureOpenai ⟨p, prompt, T⟩ = Except.error e) ∧
      (∃ e, buildRequest ProviderKind.gemini ⟨p, prompt, T⟩ = Except.error e)) ∧
    (p.azureDeployment = none →
      ∃ e, buildRequest ProviderKind.azureOpenai ⟨p, prompt, T⟩ = Except.error e) ∧
    (∃ r, buildRequest ProviderKind.ollama ⟨p, prompt, T⟩ = Except.ok r) ∧
    (∀ http tr ci a, p.apiKey = none → p.kind ≠ ProviderKind.ollama →
      ∃ f, runAttempt http p prompt T tr ci a = (AttemptOutcome.failed f, ci)) := by
  refine ⟨?_, ?_, ⟨_, rfl⟩, ?_⟩
  · intro h
    exact ⟨⟨missingKeyMessage p.id "openaiCompat",
        by simp [buildRequest, buildOpenaiCompat, requireApiKey, h]⟩,
      ⟨missingKeyMessage p.id "openaiResponses",
        by simp [buildRequest, buildOpenaiResponses, requireApiKey, h]⟩,
      ⟨missingKeyMessage p.id "anthropic",
        by simp [buildRequest, buildAnthropic, requireApiKey, h]⟩,
      ⟨missingKeyMessage p.id "azureOpenai",
        by simp [buildRequest, buildAzureOpenai, requireApiKey, h]⟩,
      ⟨missingKeyMessage p.id "gemini",
        by simp [buildRequest, buildGemini, requireApiKey, h]⟩⟩
  · intro h
    rcases hk : p.apiKey with _ | key
    · exact ⟨missingKeyMessage p.id "azureOpenai",
        by simp [buildRequest, buildAzureOpenai, requireApiKey, hk]⟩
    · by_cases hl : 0 < (strTrim key).length
      · exact ⟨"Profile \"" ++ p.id ++ "\" (azureOpenai) 缺少 azureDeployment。",
          by simp [buildRequest, buildAzureOpenai, requireApiKey, requireDeployment, hk, hl, h]⟩
      · exact ⟨missingKeyMessage p.id "azureOpenai",
          by simp [buildRequest, buildAzureOpenai, requireApiKey, hk, hl]⟩
  · intro http tr ci a h hnk
    have hb : ∃ e, buildRequest p.kind ⟨p, prompt, T⟩ = Except.error e := by
      cases hkind : p.kind
      case ollama => exact absurd hkind hnk
      case openaiCompat =>
        exact ⟨missingKeyMessage p.id "openaiCompat",
          by simp [buildRequest, buildOpenaiCompat, requireApiKey, h]⟩
      case openaiResponses =>
        exact ⟨missingKeyMessage p.id "openaiResponses",
          by simp [buildRequest, buildOpenaiResponses, requireApiKey, h]⟩
      case anthropic =>
        exact ⟨missingKeyMessage p.id "anthropic",
          by simp [buildRequest, buildAnthropic, requireApiKey, h]⟩
      case azureOpenai =>
        exact ⟨missingKeyMessage p.id "azureOpenai",
          by simp [buildRequest, buildAzureOpenai, requireApiKey, h]⟩
      case gemini =>
        exact ⟨missingKeyMessage p.id "gemini",
          by simp [buildRequest, buildGemini, requireApiKey, h]⟩
    obtain ⟨e, hb⟩ := hb
    exact ⟨mkFailure p p.baseUrl none false a e, by simp [runAttempt, hb]⟩

theorem adapter_build_requires_key_witness :
    (∃ e, buildRequest ProviderKind.openaiCompat ⟨pNoKey, "x", 1⟩ = Except.error e) ∧
    (∃ e, buildRequest ProviderKind.gemini ⟨pNoKey, "x", 1⟩ = Except.error e) ∧
    (∃ e, buildRequest ProviderKind.azureOpenai ⟨pNoKey, "x", 1⟩ = Except.error e) ∧
    (∃ r, buildRequest ProviderKind.ollama ⟨pNoKey, "x", 1⟩ = Except.ok r) := by
  obtain ⟨h1, h2, h3, _⟩ := adapter_build_requires_key pNoKey "x" 1
  exact ⟨(h1 rfl).1, (h1 rfl).2.2.2.2, h2 rfl, h3⟩

/-- Claim C8: for every adapter kind, a header bound in the profile's
`extraHeaders` keeps that binding in the built request (the spread-merge puts
`extraHeaders` last, so it overrides adapter defaults of the same name). -/
theorem adapter_extra_headers_override (kind : ProviderKind) (p : ResolvedProviderProfile)
    (prompt : String) (T : Rat) (req : AdapterRequest) (k v : String)
    (hok : buildRequest kind ⟨p, prompt, T⟩ = Except.ok req)
    (hmem : hlookup p.extraHeaders k = some v) :
    hlookup req.headers k = some v := by
  cases kind
  case openaiCompat =>
    revert hok
    unfold buildRequest buildOpenaiCompat
    dsimp only
    cases requireApiKey p.id p.apiKey "openaiCompat" with
    | error e => intro hok; exact Except.noConfusion hok
    | ok key =>
      intro hok
      obtain rfl := Except.ok.inj hok
      exact hlookup_append_right _ _ _ _ hmem
  case openaiResponses =>
    revert hok
    unfold buildRequest buildOpenaiResponses
    dsimp only
    cases requireApiKey p.id p.apiKey "openaiResponses" with
    | error e => intro hok; exact Except.noConfusion hok
    | ok key =>
      intro hok
      obtain rfl := Except.ok.inj hok
      exact hlookup_append_right _ _ _ _ hmem
  case anthropic =>
    revert hok
    unfold buildRequest buildAnthropic
    dsimp only
    cases requireApiKey p.id p.apiKey "anthropic" with
    | error e => intro hok; exact Except.noConfusion hok
    | ok key =>
      intro hok
      obtain rfl := Except.ok.inj hok
      exact hlookup_append_right _ _ _ _ hmem
  case azureOpenai =>
    revert hok
    unfold buildRequest buildAzureOpenai
    dsimp only
    cases requireApiKey p.id p.apiKey "azureOpenai" with
    | error e => intro hok; exact Except.noConfusion hok
    | ok key =>
      cases requireDeployment p.id p.azureDeployment with
      | error e => intro hok; exact Except.noConfusion hok
      | ok deployment =>
        intro hok
        obtain rfl := Except.ok.inj hok
        exact hlookup_append_right _ _ _ _ hmem
  case gemini =>
    revert hok
    unfold buildRequest buildGemini
    dsimp only
    cases requireApiKey p.id p.apiKey "gemini" with
    | error e => intro hok; exact Except.noConfusion hok
    | ok key =>
      intro hok
      obtain rfl := Except.ok.inj hok
      exact hlookup_append_right _ _ _ _ hmem
  case ollama =>
    obtain rfl := Except.ok.inj hok
    exact hlookup_append_right _ _ _ _ hmem

theorem adapter_extra_headers_override_witness :
    hlookup reqC8.headers "Authorization" = some "custom" :=
  adapter_extra_headers_override ProviderKind.openaiCompat pHdr "x" 1 reqC8
    "Authorization" "custom" rfl (by decide)

/-- One unfolding of the retry loop. -/
theorem runProfileAttempts_succ (http : Nat → HttpOutcome) (p : ResolvedProviderProfile)
    (prompt : String) (T : Rat) (tr : Option (String → String)) (ci a n : Nat) :
    runProfileAttempts http p prompt T tr ci a (n + 1) =
      match runAttempt http p prompt T tr ci a with
      | (.succeeded s, k) => ⟨some s, [], [(p.id, a)], k⟩
      | (.failed f, k) =>
        if f.retryable && decide (0 < n) then
          ⟨(runProfileAttempts http p prompt T tr k (a + 1) n).success,
            f :: (runProfileAttempts http p prompt T tr k (a + 1) n).failures,
            (p.id, a) :: (runProfileAttempts http p prompt T tr k (a + 1) n).attempts,
            (runProfileAttempts http p prompt T tr k (a + 1) n).nextCallIdx⟩
        else ⟨none, [f], [(p.id, a)], k⟩ := rfl

/-- One unfolding of the profile loop. -/
theorem runChain_cons (http : Nat → HttpOutcome) (prompt : String) (T : Rat)
    (tr : Option (String → String)) (p : ResolvedProviderProfile)
    (rest : List ResolvedProviderProfile) (ci : Nat) :
    runChain http prompt T tr (p :: rest) ci =
      (match (runProfileAttempts http p prompt T tr ci 1 (totalAttemptsOf p)).success with
       | some _ => runProfileAttempts http p prompt T tr ci 1 (totalAttemptsOf p)
       | none =>
         ⟨(runChain http prompt T tr rest
             (runProfileAttempts http p prompt T tr ci 1 (totalAttemptsOf p)).nextCallIdx).success,
          (runProfileAttempts http p prompt T tr ci 1 (totalAttemptsOf p)).failures ++
            (runChain http prompt T tr rest
              (runProfileAttempts http p prompt T tr ci 1 (totalAttemptsOf p)).nextCallIdx).failures,
          (runProfileAttempts http p prompt T tr ci 1 (totalAttemptsOf p)).attempts ++
            (runChain http prompt T tr rest
              (runProfileAttempts http p prompt T tr ci 1 (totalAttemptsOf p)).nextCallIdx).attempts,
          (runChain http prompt T tr rest
            (runProfileAttempts http p prompt T tr ci 1 (totalAttemptsOf p)).nextCallIdx).nextCallIdx⟩) := rfl

/-- Claim C1: with two profiles whose requests build successfully, where the
first profile has `maxRetries = 1` and its two HTTP calls return status 500,
and the second profile's first call returns status 200 with a body whose
parsed and transformed message is non-empty, the executor makes exactly two
attempts against the first profile and one against the second (three HTTP
calls in total), succeeds with the second profile's id, and accumulates
exactly the two failures, the first of which is retryable. -/
theorem executor_two_profile_fallback_run
    (p₁ p₂ : ResolvedProviderProfile) (prompt : String) (temp : Option Rat)
    (tr : Option (String → String)) (http : Nat → HttpOutcome)
    (d₁ d₂ d₃ : Json) (t₁ t₂ t₃ : String) (key₁ key₂ : String)
    (hk₁ : p₁.kind = ProviderKind.openaiCompat) (hk₂ : p₂.kind = ProviderKind.openaiCompat)
    (hr₁ : p₁.maxRetries = 1)
    (hkey₁ : p₁.apiKey = some key₁) (hpos₁ : 0 < (strTrim key₁).length)
    (hkey₂ : p₂.apiKey = some key₂) (hpos₂ : 0 < (strTrim key₂).length)
    (h0 : http 0 = HttpOutcome.response 500 d₁ t₁)
    (h1 : http 1 = HttpOutcome.response 500 d₂ t₂)
    (h2 : http 2 = HttpOutcome.response 200 d₃ t₃)
    (hmsg : applyTransform tr (strTrim (parseResponse ProviderKind.openaiCompat (some d₃))) ≠ "") :
    (executeProviderChain ⟨[p₁, p₂], prompt, temp, tr⟩ http).attempts =
        [(p₁.id, 1), (p₁.id, 2), (p₂.id, 1)] ∧
    (executeProviderChain ⟨[p₁, p₂], prompt, temp, tr⟩ http).nextCallIdx = 3 ∧
    (∃ s, (executeProviderChain ⟨[p₁, p₂], prompt, temp, tr⟩ http).success = some s ∧
        s.profileId = p₂.id) ∧
    (executeProviderChain ⟨[p₁, p₂], prompt, temp, tr⟩ http).failures.length = 2 ∧
    ((executeProviderChain ⟨[p₁, p₂], prompt, temp, tr⟩ http).failures.head?.map
        (fun f => f.retryable)) = some true := by
  have hb₁ : ∃ r, buildRequest p₁.kind
      ⟨p₁, prompt, temp.getD defaultTemperature⟩ = Except.ok r := by
    rw [hk₁]
    simp only [buildRequest, buildOpenaiCompat, hkey₁, requireApiKey]
    rw [if_pos hpos₁]
    exact ⟨_, rfl⟩
  obtain ⟨req₁, hb₁⟩ := hb₁
  have hb₂ : ∃ r, buildRequest p₂.kind
      ⟨p₂, prompt, temp.getD defaultTemperature⟩ = Except.ok r := by
    rw [hk₂]
    simp only [buildRequest, buildOpenaiCompat, hkey₂, requireApiKey]
    rw [if_pos hpos₂]
    exact ⟨_, rfl⟩
  obtain ⟨req₂, hb₂⟩ := hb₂
  rw [hk₂] at hb₂
  have hA1 : runAttempt http p₁ prompt (temp.getD defaultTemperature) tr 0 1 =
      (.failed (mkFailure p₁ req₁.endpoint (some 500) true 1 (statusErrorMessage 500 d₁ t₁)), 1) := by
    unfold runAttempt
    simp [hb₁, h0, isRetryableStatus]
  have hA2 : runAttempt http p₁ prompt (temp.getD defaultTemperature) tr 1 2 =
      (.failed (mkFailure p₁ req₁.endpoint (some 500) true 2 (statusErrorMessage 500 d₂ t₂)), 2) := by
    unfold runAttempt
    simp [hb₁, h1, isRetryableStatus]
  have hA3 : runAttempt http p₂ prompt (temp.getD defaultTemperature) tr 2 1 =
      (.succeeded (mkSuccess p₂ req₂.endpoint (applyTransform tr
        (strTrim (parseResponse ProviderKind.openaiCompat (some d₃))))), 3) := by
    unfold runAttempt
    simp [hb₂, h2, hk₂, hmsg]
  have htot₁ : totalAttemptsOf p₁ = 2 := by
    unfold totalAttemptsOf
    rw [hr₁]
    decide
  have hP₁ : runProfileAttempts http p₁ prompt (temp.getD defaultTemperature) tr 0 1 2 =
      ⟨none, [mkFailure p₁ req₁.endpoint (some 500) true 1 (statusErrorMessage 500 d₁ t₁),
              mkFailure p₁ req₁.endpoint (some 500) true 2 (statusErrorMessage 500 d₂ t₂)],
       [(p₁.id, 1), (p₁.id, 2)], 2⟩ := by
    rw [runProfileAttempts_succ, hA1]
    simp only [mkFailure]
    norm_num
    rw [runProfileAttempts_succ, hA2]
    simp [mkFailure]
  have hP₂ : runProfileAttempts http p₂ prompt (temp.getD defaultTemperature) tr 2 1
      (totalAttemptsOf p₂) =
      ⟨some (mkSuccess p₂ req₂.endpoint (applyTransform tr
        (strTrim (parseResponse ProviderKind.openaiCompat (some d₃))))), [], [(p₂.id, 1)], 3⟩ := by
    unfold totalAttemptsOf
    rw [runProfileAttempts_succ, hA3]
  have hchain : executeProviderChain ⟨[p₁, p₂], prompt, temp, tr⟩ http =
      ⟨some (mkSuccess p₂ req₂.endpoint (applyTransform tr
          (strTrim (parseResponse ProviderKind.openaiCompat (some d₃))))),
       [mkFailure p₁ req₁.endpoint (some 500) true 1 (statusErrorMessage 500 d₁ t₁),
        mkFailure p₁ req₁.endpoint (some 500) true 2 (statusErrorMessage 500 d₂ t₂)],
       [(p₁.id, 1), (p₁.id, 2), (p₂.id, 1)], 3⟩ := by
    show runChain http prompt (temp.getD defaultTemperature) tr [p₁, p₂] 0 = _
    rw [runChain_cons, htot₁, hP₁]
    rw [runChain_cons, hP₂]
    rfl
  rw [hchain]
  refine ⟨rfl, rfl, ⟨_, rfl, rfl⟩, rfl, rfl⟩

theorem executor_two_profile_fallback_run_witness :
    (executeProviderChain ⟨[profileC1a, profileC1b], "prompt", none, none⟩ httpC1).attempts =
        [(profileC1a.id, 1), (profileC1a.id, 2), (profileC1b.id, 1)] ∧
    (executeProviderChain ⟨[profileC1a, profileC1b], "prompt", none, none⟩ httpC1).nextCallIdx = 3 ∧
    (∃ s, (executeProviderChain ⟨[profileC1a, profileC1b], "prompt", none, none⟩
        httpC1).success = some s ∧ s.profileId = profileC1b.id) ∧
    (executeProviderChain ⟨[profileC1a, profileC1b], "prompt", none, none⟩
        httpC1).failures.length = 2 ∧
    ((executeProviderChain ⟨[profileC1a, profileC1b], "prompt", none, none⟩
        httpC1).failures.head?.map (fun f => f.retryable)) = some true :=
  executor_two_profile_fallback_run profileC1a profileC1b "prompt" none none httpC1
    Json.jnull Json.jnull bodyC1 "server error" "server error" "" "k1" "k2"
    rfl rfl rfl rfl (by decide) rfl (by decide) rfl rfl rfl (by decide)
